import Mathlib

/-!
Shallow embedding of `daemon.py` (AgentSupervisor, ProcessRunner, Daemon).

The Python code is Python 2: `None < 0` is `True` and `None > 1` is `False`
(`None` compares below every integer), `str.find` returns the first index of a
substring or `-1`, `int(s)` strips surrounding whitespace and accepts an
optional sign followed by decimal digits, and truthiness of an optional pid is
"not None and not 0".  Filesystem state is reduced to the content of the one
pidfile path (`Option String`, `none` = absent).  Side effects (signals, log
and stderr writes, pidfile removal) are recorded as explicit event traces.
-/

/-! Python string and integer helpers -/

/-- Check that `pat` occurs at the start of `l` (helper for `str.find`). -/
def beginsWith : List Char → List Char → Bool
  | _, [] => true
  | [], _ :: _ => false
  | c :: t, d :: u => c = d && beginsWith t u

/-- First index `≥ i` at which `pat` occurs in `l`, scanning left to right. -/
def findFrom (pat : List Char) : List Char → Nat → Option Nat
  | l, i =>
    if beginsWith l pat then some i
    else
      match l with
      | [] => none
      | _ :: t => findFrom pat t (i + 1)

/-- Python `s.find(sub)`: first index of `sub` in `s`, or `-1` when absent. -/
def pyFind (s sub : String) : Int :=
  match findFrom sub.data s.data 0 with
  | some n => (n : Int)
  | none => -1

/-- Python `str.strip()` on a character list: remove leading and trailing
whitespace. -/
def stripList (l : List Char) : List Char :=
  ((l.dropWhile Char.isWhitespace).reverse.dropWhile Char.isWhitespace).reverse

/-- Decimal value of an ASCII digit character, `none` for any other character. -/
def pyDigitVal (c : Char) : Option Nat :=
  if c = '0' then some 0
  else if c = '1' then some 1
  else if c = '2' then some 2
  else if c = '3' then some 3
  else if c = '4' then some 4
  else if c = '5' then some 5
  else if c = '6' then some 6
  else if c = '7' then some 7
  else if c = '8' then some 8
  else if c = '9' then some 9
  else none

/-- ASCII digit character for `d % 10`. -/
def digitChar (d : Nat) : Char :=
  match d % 10 with
  | 0 => '0'
  | 1 => '1'
  | 2 => '2'
  | 3 => '3'
  | 4 => '4'
  | 5 => '5'
  | 6 => '6'
  | 7 => '7'
  | 8 => '8'
  | _ => '9'

/-- Decimal digit list of a natural number, most significant digit first
(the digits of Python `str(n)` for `n ≥ 0`). -/
def natReprAux (n : Nat) : List Char :=
  if _h : n < 10 then [digitChar n]
  else natReprAux (n / 10) ++ [digitChar (n % 10)]
decreasing_by exact Nat.div_lt_self (by omega) (by omega)

/-- Fuel-driven, structurally recursive form of `natReprAux`, so that closed
instances reduce inside the kernel (`natReprGo (n+1) n [] = natReprAux n`). -/
def natReprGo : Nat → Nat → List Char → List Char
  | 0, _, acc => acc
  | fuel + 1, n, acc =>
    if n < 10 then digitChar n :: acc
    else natReprGo fuel (n / 10) (digitChar (n % 10) :: acc)

/-- Python `str(n)` for a natural number. -/
def natRepr (n : Nat) : String := ⟨natReprGo (n + 1) n []⟩

/-- Python `str(n)` for an integer. -/
def intStr (n : Int) : String :=
  if n < 0 then "-" ++ natRepr n.natAbs else natRepr n.toNat

/-- Fold a digit string into a number, failing at the first non-digit
(the digit loop of Python `int`). -/
def parseNatAux (acc : Nat) : List Char → Option Nat
  | [] => some acc
  | c :: t =>
    match pyDigitVal c with
    | some v => parseNatAux (acc * 10 + v) t
    | none => none

/-- Parse a non-empty all-digit list (Python `int` after sign removal). -/
def parseDigits (l : List Char) : Option Nat :=
  if l.isEmpty then none else parseNatAux 0 l

/-- Parse an optional sign followed by digits (Python `int` body). -/
def parseIntList (l : List Char) : Option Int :=
  match l with
  | [] => none
  | c :: t =>
    if c = '-' then (parseDigits t).map (fun n => -(n : Int))
    else if c = '+' then (parseDigits t).map (fun n => (n : Int))
    else (parseDigits (c :: t)).map (fun n => (n : Int))

/-- Python `int(s)`: strip whitespace, then sign and digits; `none` models the
`ValueError`. -/
def pyParseInt (s : String) : Option Int := parseIntList (stripList s.data)

/-- Python 2 truthiness of an optional integer: `None` and `0` are falsy. -/
def pyTruthy : Option Int → Bool
  | none => false
  | some n => n ≠ 0

/-- Python 2 `p < k` where `p` may be `None`: `None` compares below every
integer. -/
def pyLt (p : Option Int) (k : Int) : Bool :=
  match p with
  | none => true
  | some n => n < k

/-- Python 2 `p > k` where `p` may be `None`. -/
def pyGt (p : Option Int) (k : Int) : Bool :=
  match p with
  | none => false
  | some n => k < n

/-! Model of `daemon.py` -/

/-- Signal number of SIGTERM. -/
def SIGTERM : Nat := 15

/-- Linux errno value of EPERM. -/
def EPERM : Nat := 1

/-- Linux errno value of ESRCH ("No such process"). -/
def ESRCH : Nat := 3

/-- Python 2 `str(OSError(e, m))`: `"[Errno e] m"`. -/
def oserrStr (e : Nat) (m : String) : String :=
  "[Errno " ++ natRepr e ++ "] " ++ m

namespace Daemon

/-- Content of the daemon's one pidfile path; `none` means the file is absent. -/
abbrev FSState := Option String

/-- Method `Daemon.pid`: open the pidfile, parse `int(content.strip())`;
`IOError` (absent file) and `ValueError` (bad content) both return `None`. -/
def pid (fs : FSState) : Option Int :=
  match fs with
  | none => none
  | some s => pyParseInt s

/-- Method `Daemon.write_pidfile`: overwrite the pidfile with
`str(os.getpid())`.  The `atexit` registration and `chmod 0644` have no
observable effect on the modelled state. -/
def write_pidfile (myPid : Nat) (_fs : FSState) : FSState :=
  some (natRepr myPid)

/-- Method `Daemon.delpid`: remove the pidfile, swallowing `OSError`. -/
def delpid (_fs : FSState) : FSState := none

/-- Observable outcome of `Daemon.start`: whether `sys.exit` was reached (and
with which code), whether `daemonize()` ran, the final pidfile state, whether
`run()` was invoked, and whether the stale-pidfile warning was logged. -/
structure StartResult where
  exited : Option Nat
  daemonized : Bool
  fs : FSState
  ran : Bool
  warned : Bool
deriving DecidableEq

/-- Method `Daemon.start(foreground=False)`.  `is_my_process` is the external
liveness/ownership collaborator from `utils.process`; `myPid` is
`os.getpid()` of the (possibly daemonized) process that writes the pidfile.
Source order: pid check, then `daemonize()` unless `foreground`, then
`write_pidfile()`, then `run()`. -/
def start (fs : FSState) (is_my_process : Int → Bool) (myPid : Nat)
    (foreground : Bool) : StartResult :=
  let p := pid fs
  if pyTruthy p then
    if is_my_process (p.getD 0) then
      ⟨some 1, false, fs, false, false⟩
    else
      ⟨none, !foreground, write_pidfile myPid fs, true, true⟩
  else
    ⟨none, !foreground, write_pidfile myPid fs, true, false⟩

/-- Result of the `os.kill(pid, 0)` liveness probe in `Daemon.status`. -/
inductive ProbeResult
  | ok
  | oserr (errnoVal : Nat)
deriving DecidableEq

/-- Observable outcome of `Daemon.status`: the message written to stdout and
the `sys.exit` code. -/
structure StatusResult where
  message : String
  exitCode : Nat
deriving DecidableEq

/-- Method `Daemon.status`.  `name` is `self.__class__.__name__`; `probe n`
is the outcome of `os.kill(n, 0)`.  Python 2 note: `pid < 0` is `True` when
`pid` is `None`, so absent/invalid pidfiles take the "is not running" branch
without probing — and so do negative parsed pids. -/
def status (name : String) (fs : FSState) (probe : Int → ProbeResult) :
    StatusResult :=
  let p := pid fs
  if pyLt p 0 then
    ⟨name ++ " is not running", 1⟩
  else
    let n := p.getD 0
    match probe n with
    | .oserr e =>
      if e ≠ EPERM then
        ⟨name ++ " pidfile contains pid " ++ intStr n ++
          ", but no running process could be found", 1⟩
      else
        ⟨"You do not have sufficient permissions", 1⟩
    | .ok => ⟨name ++ " is running with pid " ++ intStr n, 0⟩

/-- Events observable during `Daemon.stop`, in program order.  `logWarn` is
the fallback warning of the autorestart branch (its text is irrelevant to
every claim and omitted). -/
inductive StopEv
  | removePidfile
  | kill (target : Int) (sig : Nat)
  | logWarn
  | logInfo (msg : String)
  | logException (msg : String)
  | stderrWrite (msg : String)
deriving DecidableEq

/-- Result of one `os.kill(target, SIGTERM)` call inside `Daemon.stop`. -/
inductive KillOutcome
  | ok
  | oserr (errnoVal : Nat) (strerror : String)
deriving DecidableEq

/-- Observable outcome of `Daemon.stop`: event trace and final pidfile state. -/
structure StopResult where
  events : List StopEv
  fs : FSState
deriving DecidableEq

/-- Message of the not-running branch of `Daemon.stop`
(`"Pidfile %s does not exist. Not running?\n" % self.pidfile`). -/
def notRunningMsg (pidfilePath : String) : String :=
  "Pidfile " ++ pidfilePath ++ " does not exist. Not running?\n"

/-- Message of `log.exception` in `Daemon.stop`
(`"Cannot kill Agent daemon at pid %s" % pid`). -/
def cannotKillMsg (p : Int) : String :=
  "Cannot kill Agent daemon at pid " ++ intStr p

/-- Method `Daemon.stop`.  `getpgid` models `os.getpgid`; `killRes t s` the
outcome of `os.kill(t, s)`.  The pidfile is removed (when present) before any
signalling; a trailing exit-status check `str(err).find("No such process") <= 0`
decides whether an `OSError` escaping the kill calls is logged and echoed to
stderr or silently swallowed. -/
def stop (pidfilePath : String) (fs : FSState) (autorestart : Bool)
    (getpgid : Int → Int) (killRes : Int → Nat → KillOutcome) : StopResult :=
  let p := pid fs
  let removeEvs : List StopEv := if fs.isSome then [.removePidfile] else []
  if pyGt p 1 then
    let n := p.getD 0
    let attempt : List StopEv × Option (Nat × String) :=
      if autorestart then
        let pg := getpgid n
        match killRes pg SIGTERM with
        | .ok => ([.kill pg SIGTERM], none)
        | .oserr _ _ =>
          match killRes n SIGTERM with
          | .ok => ([.kill pg SIGTERM, .logWarn, .kill n SIGTERM], none)
          | .oserr e m => ([.kill pg SIGTERM, .logWarn, .kill n SIGTERM], some (e, m))
      else
        match killRes n SIGTERM with
        | .ok => ([.kill n SIGTERM], none)
        | .oserr e m => ([.kill n SIGTERM], some (e, m))
    match attempt.2 with
    | none => ⟨removeEvs ++ attempt.1 ++ [.logInfo "Daemon is stopped"], none⟩
    | some (e, m) =>
      let s := oserrStr e m
      if pyFind s "No such process" ≤ 0 then
        ⟨removeEvs ++ attempt.1 ++
          [.logException (cannotKillMsg n), .stderrWrite (s ++ "\n")], none⟩
      else
        ⟨removeEvs ++ attempt.1, none⟩
  else
    ⟨removeEvs ++ [.logInfo (notRunningMsg pidfilePath),
      .stderrWrite (notRunningMsg pidfilePath)], none⟩

/-- Method `Daemon.restart`: `self.stop()` then `self.start()`; the call
passes no argument, so `foreground` takes its declared default `False`. -/
def restart (pidfilePath : String) (fs : FSState) (autorestart : Bool)
    (getpgid : Int → Int) (killRes : Int → Nat → KillOutcome)
    (is_my_process : Int → Bool) (myPid : Nat) : StartResult :=
  let afterStop := stop pidfilePath fs autorestart getpgid killRes
  start afterStop.fs is_my_process myPid false

end Daemon

/-! Model of `AgentSupervisor` -/

namespace AgentSupervisor

/-- Class attribute `RESTART_EXIT_STATUS` (the reserved sentinel). -/
def RESTART_EXIT_STATUS : Nat := 5

/-- Parent half of the `AgentSupervisor.start` loop.  Each list element is one
death of the tracked child: the value of `cls.need_stop` observed at the
`if cls.need_stop: break` check of that iteration, and the child's waitpid
exit status.  The accumulator counts forks performed so far; the boolean of
the result records whether the outer loop has terminated (`false` means the
script ended with the loop still running a forked child). -/
def superviseAux : List (Bool × Nat) → Nat → Nat × Bool
  | [], forks => (forks, false)
  | (ns, _status) :: rest, forks =>
    if ns then (forks, true) else superviseAux rest (forks + 1)

/-- Observable outcome of `AgentSupervisor._handle_sigterm`: signals sent,
resulting `need_stop`, and `sys.exit` code if any. -/
structure SigtermResult where
  kills : List (Nat × Nat)
  need_stop : Bool
  exitCode : Option Nat
deriving DecidableEq

/-- Classmethod `AgentSupervisor._handle_sigterm`: with a tracked `child_pid`
(the parent role) forward SIGTERM and set `need_stop`; without one (the child
role) exit 0. -/
def handle_sigterm (child_pid : Option Nat) (need_stop : Bool) : SigtermResult :=
  match child_pid with
  | some p => ⟨[(p, SIGTERM)], true, none⟩
  | none => ⟨[], need_stop, some 0⟩

end AgentSupervisor

/-! Model of `ProcessRunner` -/

namespace ProcessRunner

/-- A `tempfile.TemporaryFile`: byte content and current position. -/
structure TmpFile where
  data : List Char
  pos : Nat
deriving DecidableEq

/-- Fresh empty temporary file. -/
def TmpFile.empty : TmpFile := ⟨[], 0⟩

/-- Write bytes at the current position, overwriting, and advance. -/
def TmpFile.write (f : TmpFile) (s : List Char) : TmpFile :=
  ⟨f.data.take f.pos ++ s ++ f.data.drop (f.pos + s.length), f.pos + s.length⟩

/-- Method `seek(k)`. -/
def TmpFile.seek (f : TmpFile) (k : Nat) : TmpFile := ⟨f.data, k⟩

/-- Method `read()` with no argument: everything from the position to the end. -/
def TmpFile.readRest (f : TmpFile) : List Char × TmpFile :=
  (f.data.drop f.pos, ⟨f.data, f.data.length⟩)

/-- Behaviour of the launched child process: bytes it writes to its stdout and
stderr, and its exit code. -/
structure ChildBehavior where
  outBytes : List Char
  errBytes : List Char
  code : Int
deriving DecidableEq

/-- Writes `ProcessRunner.execute` performs on the parent's own streams. -/
inductive ExecEv
  | writeStdout (s : List Char)
  | writeStderr (s : List Char)
deriving DecidableEq

/-- Observable outcome of `ProcessRunner.execute`: the parent's stream writes
in order, and the returned exit code. -/
structure ExecResult where
  events : List ExecEv
  ret : Int
deriving DecidableEq

/-- Method `ProcessRunner.execute`.  With `redirect_std_streams` the child's
streams are captured into the two temporary files; after `wait()` the code
seeks both buffers to 0 and reads stderr first, then stdout, but replays them
to the parent as stdout first, then stderr.  The return value is
`self._process.returncode`. -/
def execute (redirect_std_streams : Bool) (child : ChildBehavior) : ExecResult :=
  let stdout_f := if redirect_std_streams then TmpFile.empty.write child.outBytes
    else TmpFile.empty
  let stderr_f := if redirect_std_streams then TmpFile.empty.write child.errBytes
    else TmpFile.empty
  if redirect_std_streams then
    let err := ((stderr_f.seek 0).readRest).1
    let out := ((stdout_f.seek 0).readRest).1
    ⟨[.writeStdout out, .writeStderr err], child.code⟩
  else
    ⟨[], child.code⟩

end ProcessRunner

/-! Round-trip lemmas for decimal printing and parsing -/

theorem digitChar_spec (d : Nat) :
    pyDigitVal (digitChar d) = some (d % 10) ∧
    (digitChar d).isWhitespace = false ∧
    digitChar d ≠ '-' ∧ digitChar d ≠ '+' := by
  have h : d % 10 = 0 ∨ d % 10 = 1 ∨ d % 10 = 2 ∨ d % 10 = 3 ∨ d % 10 = 4 ∨
      d % 10 = 5 ∨ d % 10 = 6 ∨ d % 10 = 7 ∨ d % 10 = 8 ∨ d % 10 = 9 := by omega
  unfold digitChar
  rcases h with h | h | h | h | h | h | h | h | h | h <;> rw [h] <;> decide

theorem parseNatAux_append (l1 l2 : List Char) :
    ∀ acc, parseNatAux acc (l1 ++ l2) =
      (parseNatAux acc l1).bind (fun m => parseNatAux m l2) := by
  induction l1 with
  | nil => intro acc; simp [parseNatAux]
  | cons c t ih =>
    intro acc
    simp only [List.cons_append, parseNatAux]
    cases pyDigitVal c with
    | none => simp
    | some v => simp [ih]

theorem natReprAux_ne_nil (n : Nat) : natReprAux n ≠ [] := by
  rw [natReprAux]
  split <;> simp

theorem parseNatAux_natReprAux (n : Nat) :
    ∀ acc, parseNatAux acc (natReprAux n) =
      some (acc * 10 ^ (natReprAux n).length + n) := by
  induction n using Nat.strong_induction_on with
  | _ n ih =>
    intro acc
    rw [natReprAux]
    split
    · rename_i h
      simp [parseNatAux, (digitChar_spec n).1, Nat.mod_eq_of_lt h]
    · rename_i h
      have hlt : n / 10 < n := Nat.div_lt_self (by omega) (by omega)
      rw [parseNatAux_append, ih (n / 10) hlt acc]
      simp only [Option.some_bind, parseNatAux, (digitChar_spec (n % 10)).1,
        List.length_append, List.length_cons, List.length_nil, Nat.zero_add,
        Option.some.injEq]
      rw [Nat.add_mul, pow_succ, ← mul_assoc]
      omega

theorem natReprAux_digits (n : Nat) :
    ∀ c ∈ natReprAux n, ∃ d, c = digitChar d := by
  induction n using Nat.strong_induction_on with
  | _ n ih =>
    intro c hc
    rw [natReprAux] at hc
    split at hc
    · simp at hc; exact ⟨n, hc⟩
    · rename_i h
      have hlt : n / 10 < n := Nat.div_lt_self (by omega) (by omega)
      rcases List.mem_append.mp hc with h1 | h2
      · exact ih (n / 10) hlt c h1
      · simp at h2; exact ⟨n % 10, h2⟩

theorem dropWhile_eq_self_of_forall {p : Char → Bool} {l : List Char}
    (h : ∀ c ∈ l, p c = false) : l.dropWhile p = l := by
  cases l with
  | nil => rfl
  | cons c t => simp [List.dropWhile, h c (by simp)]

theorem stripList_eq_self {l : List Char}
    (h : ∀ c ∈ l, c.isWhitespace = false) : stripList l = l := by
  unfold stripList
  rw [dropWhile_eq_self_of_forall h,
      dropWhile_eq_self_of_forall (fun c hc => h c (List.mem_reverse.mp hc)),
      List.reverse_reverse]

theorem natReprGo_eq (fuel : Nat) :
    ∀ n acc, n < fuel → natReprGo fuel n acc = natReprAux n ++ acc := by
  induction fuel with
  | zero => intro n acc h; omega
  | succ fuel ih =>
    intro n acc h
    simp only [natReprGo]
    split
    · rename_i hlt
      rw [natReprAux, dif_pos hlt]
      rfl
    · rename_i hge
      rw [ih (n / 10) (digitChar (n % 10) :: acc) (by omega)]
      conv_rhs => rw [natReprAux]
      rw [dif_neg hge, List.append_assoc]
      rfl

theorem natRepr_data (n : Nat) : (natRepr n).data = natReprAux n := by
  show natReprGo (n + 1) n [] = natReprAux n
  rw [natReprGo_eq (n + 1) n [] (by omega), List.append_nil]

theorem pyParseInt_natRepr (n : Nat) : pyParseInt (natRepr n) = some (n : Int) := by
  have hdata : (natRepr n).data = natReprAux n := natRepr_data n
  have hdig : ∀ c ∈ natReprAux n, c.isWhitespace = false := by
    intro c hc
    obtain ⟨d, rfl⟩ := natReprAux_digits n c hc
    exact (digitChar_spec d).2.1
  unfold pyParseInt
  rw [hdata, stripList_eq_self hdig]
  obtain ⟨c, t, hct⟩ : ∃ c t, natReprAux n = c :: t := by
    cases h : natReprAux n with
    | nil => exact absurd h (natReprAux_ne_nil n)
    | cons c t => exact ⟨c, t, rfl⟩
  have hc : c ∈ natReprAux n := by rw [hct]; simp
  obtain ⟨d, rfl⟩ := natReprAux_digits n c hc
  rw [hct]
  simp only [parseIntList]
  rw [if_neg (digitChar_spec d).2.2.1, if_neg (digitChar_spec d).2.2.2]
  unfold parseDigits
  rw [if_neg (by simp)]
  rw [← hct, parseNatAux_natReprAux n 0]
  simp


/-! Helper lemmas about the models -/

theorem stop_fs_none (path : String) (fs : Daemon.FSState) (ar : Bool)
    (gp : Int → Int) (kr : Int → Nat → Daemon.KillOutcome) :
    (Daemon.stop path fs ar gp kr).fs = none := by
  unfold Daemon.stop
  dsimp only
  split
  · split
    · rfl
    · split <;> rfl
  · rfl

/-! Claim theorems -/

/-- C8: PID file round-trip.  After `write_pidfile` records pid `n`, `pid()`
on the same path returns `n`; after `delpid` removes the file, `pid()`
returns the absent value `none` regardless of the prior content. -/
theorem claim_C8_pidfile_roundtrip :
    (∀ (fs : Daemon.FSState) (n : Nat),
      Daemon.pid (Daemon.write_pidfile n fs) = some (n : Int)) ∧
    (∀ fs : Daemon.FSState, Daemon.pid (Daemon.delpid fs) = none) :=
  ⟨fun _fs n => pyParseInt_natRepr n, fun _fs => rfl⟩

/-- C3 counterexample: with the pidfile containing `"0"` (which `pid()`
parses to the PID `0`) and an `is_my_process` oracle that answers true,
`start` does not refuse: it does not exit with status 1, it daemonizes,
rewrites the pidfile and invokes `run()` — refuting the claim as stated,
because `if pid:` is false for `0` and the ownership check is skipped. -/
theorem claim_C3_counterexample :
    Daemon.pid (some "0") = some 0 ∧
    (fun _ => true : Int → Bool) 0 = true ∧
    (Daemon.start (some "0") (fun _ => true) 42 false).exited ≠ some 1 ∧
    (Daemon.start (some "0") (fun _ => true) 42 false).daemonized = true ∧
    (Daemon.start (some "0") (fun _ => true) 42 false).fs ≠ some "0" ∧
    (Daemon.start (some "0") (fun _ => true) 42 false).ran = true := by
  decide

/-- C3 (amended): for every `Daemon.start(foreground)` call where the PID
file yields a nonzero PID and a live matching process with that PID exists
(`is_my_process` returns true), start refuses: it exits with status 1 without
calling `daemonize()`, without rewriting the PID file, and without invoking
`run()`. -/
theorem claim_C3_start_refuses (fs : Daemon.FSState) (imp : Int → Bool)
    (myPid : Nat) (fg : Bool) (n : Int)
    (hpid : Daemon.pid fs = some n) (hnz : n ≠ 0) (himp : imp n = true) :
    Daemon.start fs imp myPid fg = ⟨some 1, false, fs, false, false⟩ := by
  simp [Daemon.start, hpid, pyTruthy, hnz, himp]

/-- Witness for C3 (amended) at the concrete pidfile content `"7"`. -/
theorem claim_C3_start_refuses_witness :
    Daemon.start (some "7") (fun _ => true) 42 true
      = ⟨some 1, false, some "7", false, false⟩ :=
  claim_C3_start_refuses (some "7") (fun _ => true) 42 true 7
    (by decide) (by decide) rfl

/-- C4 counterexample: the pidfile content `"-5"` parses to the PID `-5`;
with a probe that succeeds on every pid, the claim as stated requires
"running with pid -5" and exit 0, but `status` reports "is not running" with
exit 1 (the Python 2 test `pid < 0` routes negative pids to the absent
branch and the probe is never consulted). -/
theorem claim_C4_counterexample :
    Daemon.pid (some "-5") = some (-5) ∧
    Daemon.status "Agent" (some "-5") (fun _ => Daemon.ProbeResult.ok)
      = ⟨"Agent is not running", 1⟩ := by
  decide

/-- C4 (amended): `status()` is a tri-state function of the PID file and the
liveness probe, where pidfiles parsing to a negative PID are treated exactly
like absent/invalid ones: absent/invalid/negative prints "name is not
running" and exits 1; for a nonnegative PID, an EPERM probe error reports
insufficient permissions and exits 1, any other probe error reports
"pidfile contains pid N, but no running process could be found" and exits 1,
and a successful probe reports running with that pid and exits 0. -/
theorem claim_C4_status_tristate (name : String) (fs : Daemon.FSState)
    (probe : Int → Daemon.ProbeResult) :
    (pyLt (Daemon.pid fs) 0 = true →
      Daemon.status name fs probe = ⟨name ++ " is not running", 1⟩) ∧
    (∀ n : Int, Daemon.pid fs = some n → 0 ≤ n →
      (probe n = Daemon.ProbeResult.ok →
        Daemon.status name fs probe
          = ⟨name ++ " is running with pid " ++ intStr n, 0⟩) ∧
      (∀ e : Nat, probe n = Daemon.ProbeResult.oserr e → e ≠ EPERM →
        Daemon.status name fs probe
          = ⟨name ++ " pidfile contains pid " ++ intStr n ++
              ", but no running process could be found", 1⟩) ∧
      (probe n = Daemon.ProbeResult.oserr EPERM →
        Daemon.status name fs probe
          = ⟨"You do not have sufficient permissions", 1⟩)) := by
  constructor
  · intro h
    simp [Daemon.status, h]
  · intro n hpid hnn
    have hlt : pyLt (some n) 0 = false := by
      simp [pyLt]; omega
    refine ⟨?_, ?_, ?_⟩
    · intro hp
      simp [Daemon.status, hlt, hpid, hp]
    · intro e hp hne
      simp [Daemon.status, hlt, hpid, hp, hne]
    · intro hp
      simp [Daemon.status, hlt, hpid, hp]

/-- Witness for C4 (amended): one concrete instance of each of the four
branches. -/
theorem claim_C4_status_tristate_witness :
    Daemon.status "Agent" none (fun _ => Daemon.ProbeResult.ok)
      = ⟨"Agent is not running", 1⟩ ∧
    Daemon.status "Agent" (some "3") (fun _ => Daemon.ProbeResult.ok)
      = ⟨"Agent is running with pid " ++ intStr 3, 0⟩ ∧
    Daemon.status "Agent" (some "3") (fun _ => Daemon.ProbeResult.oserr 3)
      = ⟨"Agent pidfile contains pid " ++ intStr 3 ++
          ", but no running process could be found", 1⟩ ∧
    Daemon.status "Agent" (some "3") (fun _ => Daemon.ProbeResult.oserr EPERM)
      = ⟨"You do not have sufficient permissions", 1⟩ := by
  refine ⟨?_, ?_, ?_, ?_⟩
  · exact (claim_C4_status_tristate "Agent" none
      (fun _ => Daemon.ProbeResult.ok)).1 (by decide)
  · exact ((claim_C4_status_tristate "Agent" (some "3")
      (fun _ => Daemon.ProbeResult.ok)).2 3 (by decide) (by decide)).1 rfl
  · exact ((claim_C4_status_tristate "Agent" (some "3")
      (fun _ => Daemon.ProbeResult.oserr 3)).2 3 (by decide) (by decide)).2.1
        3 rfl (by decide)
  · exact ((claim_C4_status_tristate "Agent" (some "3")
      (fun _ => Daemon.ProbeResult.oserr EPERM)).2 3 (by decide) (by decide)).2.2 rfl

/-- C9: for every `stop()` call where the PID file contains a valid integer
PID `n ≤ 1` (for example `1`, `0` or a negative number), no signal is ever
attempted against any process or process group: the pidfile is removed, the
daemon is reported as not running on stderr, and `stop` returns exactly what
it returns when no PID was found at all (the only difference being the
removal of the file that was present). -/
theorem claim_C9_stop_small_pid (path : String) (fs : Daemon.FSState)
    (ar : Bool) (gp : Int → Int) (kr : Int → Nat → Daemon.KillOutcome)
    (n : Int) (hpid : Daemon.pid fs = some n) (hle : n ≤ 1) :
    Daemon.stop path fs ar gp kr
      = ⟨(if fs.isSome then [Daemon.StopEv.removePidfile] else []) ++
          [Daemon.StopEv.logInfo (Daemon.notRunningMsg path),
           Daemon.StopEv.stderrWrite (Daemon.notRunningMsg path)], none⟩ ∧
    (∀ t s, Daemon.StopEv.kill t s ∉ (Daemon.stop path fs ar gp kr).events) ∧
    Daemon.stop path none ar gp kr
      = ⟨[Daemon.StopEv.logInfo (Daemon.notRunningMsg path),
          Daemon.StopEv.stderrWrite (Daemon.notRunningMsg path)], none⟩ := by
  have hgt : pyGt (Daemon.pid fs) 1 = false := by
    rw [hpid]; simp [pyGt]; omega
  have hmain : Daemon.stop path fs ar gp kr
      = ⟨(if fs.isSome then [Daemon.StopEv.removePidfile] else []) ++
          [Daemon.StopEv.logInfo (Daemon.notRunningMsg path),
           Daemon.StopEv.stderrWrite (Daemon.notRunningMsg path)], none⟩ := by
    unfold Daemon.stop
    rw [if_neg (by rw [hgt]; simp)]
  refine ⟨hmain, ?_, rfl⟩
  intro t s
  rw [hmain]
  rcases fs with _ | c <;> simp

/-- Witness for C9 at the concrete pidfile content `"1"`. -/
theorem claim_C9_stop_small_pid_witness :
    Daemon.stop "p" (some "1") false (fun x => x)
        (fun _ _ => Daemon.KillOutcome.ok)
      = ⟨[Daemon.StopEv.removePidfile,
          Daemon.StopEv.logInfo (Daemon.notRunningMsg "p"),
          Daemon.StopEv.stderrWrite (Daemon.notRunningMsg "p")], none⟩ :=
  (claim_C9_stop_small_pid "p" (some "1") false (fun x => x)
    (fun _ _ => Daemon.KillOutcome.ok) 1 (by decide) (by decide)).1

/-- C6: `stop()` is idempotent and total on an absent or invalid PID file:
when `pid()` finds no valid PID the call takes the not-running path (no
signal, a "Not running?" report) and completes; and after any first `stop()`
call whatsoever, a second call always takes that same benign path. -/
theorem claim_C6_stop_idempotent (path : String) (fs : Daemon.FSState)
    (ar : Bool) (gp : Int → Int) (kr : Int → Nat → Daemon.KillOutcome)
    (habs : Daemon.pid fs = none) :
    Daemon.stop path fs ar gp kr
      = ⟨(if fs.isSome then [Daemon.StopEv.removePidfile] else []) ++
          [Daemon.StopEv.logInfo (Daemon.notRunningMsg path),
           Daemon.StopEv.stderrWrite (Daemon.notRunningMsg path)], none⟩ ∧
    (∀ fs2 : Daemon.FSState,
      Daemon.stop path (Daemon.stop path fs2 ar gp kr).fs ar gp kr
        = ⟨[Daemon.StopEv.logInfo (Daemon.notRunningMsg path),
            Daemon.StopEv.stderrWrite (Daemon.notRunningMsg path)], none⟩) := by
  constructor
  · have hgt : pyGt (Daemon.pid fs) 1 = false := by rw [habs]; rfl
    unfold Daemon.stop
    rw [if_neg (by rw [hgt]; simp)]
  · intro fs2
    rw [stop_fs_none]
    rfl

/-- Witness for C6: first call on an absent pidfile, and a second call right
after a first `stop` on a pidfile holding a live-looking pid. -/
theorem claim_C6_stop_idempotent_witness :
    Daemon.stop "p" none false (fun x => x) (fun _ _ => Daemon.KillOutcome.ok)
      = ⟨[Daemon.StopEv.logInfo (Daemon.notRunningMsg "p"),
          Daemon.StopEv.stderrWrite (Daemon.notRunningMsg "p")], none⟩ ∧
    Daemon.stop "p"
        (Daemon.stop "p" (some "99") false (fun x => x)
          (fun _ _ => Daemon.KillOutcome.ok)).fs
        false (fun x => x) (fun _ _ => Daemon.KillOutcome.ok)
      = ⟨[Daemon.StopEv.logInfo (Daemon.notRunningMsg "p"),
          Daemon.StopEv.stderrWrite (Daemon.notRunningMsg "p")], none⟩ :=
  ⟨(claim_C6_stop_idempotent "p" none false (fun x => x)
      (fun _ _ => Daemon.KillOutcome.ok) rfl).1,
   (claim_C6_stop_idempotent "p" none false (fun x => x)
      (fun _ _ => Daemon.KillOutcome.ok) rfl).2 (some "99")⟩

/-- C5: for every `stop()` call that reaches the signalling step and whose
SIGTERM send raises an OSError — in both modes: without autorestart the one
direct kill, with autorestart the process-group kill followed (after a
warning) by the fallback kill whose error is the one that escapes — the full
observable trace is: pidfile removal, then the kill attempt(s), then —
exactly when `str(err).find("No such process") <= 0` — an exception log and
a stderr write; nothing else, and `stop` completes normally with the file
already removed before signalling.  A standard ESRCH error stringifies to
`"[Errno 3] No such process"`, whose find-index is 10 > 0, so it is
swallowed silently. -/
theorem claim_C5_stop_kill_error (path : String) (fs : Daemon.FSState)
    (ar : Bool) (gp : Int → Int) (kr : Int → Nat → Daemon.KillOutcome)
    (n : Int) (e : Nat) (m : String)
    (hpid : Daemon.pid fs = some n) (hgt : 1 < n)
    (hkill : kr n SIGTERM = Daemon.KillOutcome.oserr e m)
    (hpg : ar = true →
      ∃ e1 m1, kr (gp n) SIGTERM = Daemon.KillOutcome.oserr e1 m1) :
    Daemon.stop path fs ar gp kr
      = ⟨Daemon.StopEv.removePidfile ::
          ((if ar then
              [Daemon.StopEv.kill (gp n) SIGTERM, Daemon.StopEv.logWarn,
               Daemon.StopEv.kill n SIGTERM]
            else [Daemon.StopEv.kill n SIGTERM]) ++
           (if pyFind (oserrStr e m) "No such process" ≤ 0
            then [Daemon.StopEv.logException (Daemon.cannotKillMsg n),
                  Daemon.StopEv.stderrWrite (oserrStr e m ++ "\n")]
            else [])), none⟩ ∧
    (e = ESRCH → m = "No such process" →
      pyFind (oserrStr e m) "No such process" = 10) := by
  obtain ⟨s, rfl⟩ : ∃ s, fs = some s := by
    cases fs with
    | none => exact absurd hpid (by simp [Daemon.pid])
    | some s => exact ⟨s, rfl⟩
  constructor
  · have hgt' : pyGt (some n) 1 = true := by
      simp [pyGt]; omega
    cases ar with
    | false =>
      unfold Daemon.stop
      simp [hpid, hgt', hkill]
      split <;> rfl
    | true =>
      obtain ⟨e1, m1, hpg'⟩ := hpg rfl
      unfold Daemon.stop
      simp [hpid, hgt', hpg', hkill]
      split <;> rfl
  · rintro rfl rfl
    decide

/-- Witness for C5 at pidfile content `"2"`: the autorestart mode where both
the process-group kill and the fallback kill fail with a standard ESRCH
error (swallowed silently), and the direct mode where the kill fails with a
permission error (logged and echoed to stderr). -/
theorem claim_C5_stop_kill_error_witness :
    Daemon.stop "p" (some "2") true (fun x => x)
        (fun _ _ => Daemon.KillOutcome.oserr 3 "No such process")
      = ⟨[Daemon.StopEv.removePidfile, Daemon.StopEv.kill 2 SIGTERM,
          Daemon.StopEv.logWarn, Daemon.StopEv.kill 2 SIGTERM], none⟩ ∧
    Daemon.stop "p" (some "2") false (fun x => x)
        (fun _ _ => Daemon.KillOutcome.oserr 13 "Permission denied")
      = ⟨[Daemon.StopEv.removePidfile, Daemon.StopEv.kill 2 SIGTERM,
          Daemon.StopEv.logException (Daemon.cannotKillMsg 2),
          Daemon.StopEv.stderrWrite (oserrStr 13 "Permission denied" ++ "\n")],
        none⟩ ∧
    pyFind (oserrStr 3 "No such process") "No such process" = 10 := by
  have h1 := claim_C5_stop_kill_error "p" (some "2") true (fun x => x)
    (fun _ _ => Daemon.KillOutcome.oserr 3 "No such process") 2 3
    "No such process" (by decide) (by decide) rfl
    (fun _ => ⟨3, "No such process", rfl⟩)
  have h2 := claim_C5_stop_kill_error "p" (some "2") false (fun x => x)
    (fun _ _ => Daemon.KillOutcome.oserr 13 "Permission denied") 2 13
    "Permission denied" (by decide) (by decide) rfl
    (fun hcontra => absurd hcontra (by decide))
  exact ⟨h1.1.trans (by decide), h2.1.trans (by decide), h1.2 rfl rfl⟩

/-- C10: `restart()` is `stop()` followed by `start()` with no argument, so
`foreground` takes its default `False`; consequently a restarted daemon
always goes through `daemonize()` (and, since `stop` always removes the
pidfile, the subsequent `start` can never refuse). -/
theorem claim_C10_restart_backgrounds (path : String) (fs : Daemon.FSState)
    (ar : Bool) (gp : Int → Int) (kr : Int → Nat → Daemon.KillOutcome)
    (imp : Int → Bool) (myPid : Nat) :
    Daemon.restart path fs ar gp kr imp myPid
      = Daemon.start (Daemon.stop path fs ar gp kr).fs imp myPid false ∧
    (Daemon.restart path fs ar gp kr imp myPid).daemonized = true ∧
    (Daemon.restart path fs ar gp kr imp myPid).exited = none ∧
    (Daemon.restart path fs ar gp kr imp myPid).ran = true := by
  refine ⟨rfl, ?_, ?_, ?_⟩
  · show (Daemon.start (Daemon.stop path fs ar gp kr).fs imp myPid false).daemonized = true
    rw [stop_fs_none]; rfl
  · show (Daemon.start (Daemon.stop path fs ar gp kr).fs imp myPid false).exited = none
    rw [stop_fs_none]; rfl
  · show (Daemon.start (Daemon.stop path fs ar gp kr).fs imp myPid false).ran = true
    rw [stop_fs_none]; rfl

/-- C1: in the `AgentSupervisor.start` parent loop, every tracked-child death
observed with `need_stop = false` reforks, whatever the exit status — the
reserved `RESTART_EXIT_STATUS` sentinel 5 included; a death observed with
`need_stop = true` breaks the outer loop; the loop's behaviour depends only
on the sequence of `need_stop` values, never on the exit statuses (the
sentinel is inert); and the loop terminates only when some poll observed
`need_stop = true`. -/
theorem claim_C1_supervisor_loop (rest : List (Bool × Nat)) (f s : Nat) :
    AgentSupervisor.superviseAux ((false, s) :: rest) f
      = AgentSupervisor.superviseAux rest (f + 1) ∧
    AgentSupervisor.superviseAux
        ((false, AgentSupervisor.RESTART_EXIT_STATUS) :: rest) f
      = AgentSupervisor.superviseAux rest (f + 1) ∧
    AgentSupervisor.superviseAux ((true, s) :: rest) f = (f, true) ∧
    (∀ (evs evs' : List (Bool × Nat)) (g : Nat),
      evs.map Prod.fst = evs'.map Prod.fst →
      AgentSupervisor.superviseAux evs g = AgentSupervisor.superviseAux evs' g) ∧
    (∀ (evs : List (Bool × Nat)) (g : Nat),
      (AgentSupervisor.superviseAux evs g).2 = true → true ∈ evs.map Prod.fst) := by
  refine ⟨rfl, rfl, rfl, ?_, ?_⟩
  · intro evs
    induction evs with
    | nil =>
      intro evs' g h
      cases evs' with
      | nil => rfl
      | cons b u => simp at h
    | cons a t ih =>
      intro evs' g h
      cases evs' with
      | nil => simp at h
      | cons b u =>
        obtain ⟨ns, st⟩ := a
        obtain ⟨ns', st'⟩ := b
        simp at h
        obtain ⟨h1, h2⟩ := h
        subst h1
        cases ns with
        | false => exact ih u (g + 1) h2
        | true => rfl
  · intro evs
    induction evs with
    | nil =>
      intro g h
      simp [AgentSupervisor.superviseAux] at h
    | cons a t ih =>
      intro g h
      obtain ⟨ns, st⟩ := a
      cases ns with
      | false =>
        have hstep : AgentSupervisor.superviseAux ((false, st) :: t) g
            = AgentSupervisor.superviseAux t (g + 1) := rfl
        rw [hstep] at h
        exact List.mem_cons_of_mem _ (ih (g + 1) h)
      | true => simp

/-- Witness for C1: concrete reforks (the sentinel status 5 among them), a
concrete stop, status-independence on two scripts differing only in
statuses, and the termination conjunct at a script that stops. -/
theorem claim_C1_supervisor_loop_witness :
    AgentSupervisor.superviseAux [(false, 5)] 1
      = AgentSupervisor.superviseAux [] 2 ∧
    AgentSupervisor.superviseAux [(true, 0)] 1 = (1, true) ∧
    AgentSupervisor.superviseAux [(false, 5), (true, 0)] 1
      = AgentSupervisor.superviseAux [(false, 7), (true, 9)] 1 ∧
    true ∈ ([(false, 5), (true, 0)] : List (Bool × Nat)).map Prod.fst := by
  refine ⟨?_, ?_, ?_, ?_⟩
  · exact (claim_C1_supervisor_loop [] 1 5).1
  · exact (claim_C1_supervisor_loop [] 1 0).2.2.1
  · exact (claim_C1_supervisor_loop [] 1 0).2.2.2.1
      [(false, 5), (true, 0)] [(false, 7), (true, 9)] 1 (by decide)
  · exact (claim_C1_supervisor_loop [] 1 0).2.2.2.2
      [(false, 5), (true, 0)] 1 (by decide)

/-- C2: `AgentSupervisor._handle_sigterm` is a dichotomy on the presence of
the tracked child pid: with `child_pid` set it sends SIGTERM to that pid and
sets `need_stop` to true without exiting; with `child_pid` unset it exits
the process with status 0 (sending nothing and leaving `need_stop` alone). -/
theorem claim_C2_sigterm_dichotomy (p : Nat) (ns : Bool) :
    AgentSupervisor.handle_sigterm (some p) ns
      = ⟨[(p, SIGTERM)], true, none⟩ ∧
    AgentSupervisor.handle_sigterm none ns = ⟨[], ns, some 0⟩ :=
  ⟨rfl, rfl⟩

/-- C7: for every `execute` invocation with `redirect_std_streams = true`,
whatever bytes the child writes to its stdout and stderr, the parent replays
the captured stdout bytes verbatim to its own stdout and then the captured
stderr bytes to its own stderr (stdout-then-stderr write order, although the
stderr buffer is read first), and the returned value is the child's real
exit code. -/
theorem claim_C7_execute_redirect (child : ProcessRunner.ChildBehavior) :
    ProcessRunner.execute true child
      = ⟨[ProcessRunner.ExecEv.writeStdout child.outBytes,
          ProcessRunner.ExecEv.writeStderr child.errBytes], child.code⟩ := by
  simp [ProcessRunner.execute, ProcessRunner.TmpFile.empty,
    ProcessRunner.TmpFile.write, ProcessRunner.TmpFile.seek,
    ProcessRunner.TmpFile.readRest]
